import Mathlib

/-!
# Verification of the gesture arbitration engine (`src/listeners/swipe.ts`)

Shallow embedding of the swipe/drag gesture state machine from
`src/listeners/swipe.ts` (the shipping revision; `src/unnamed/part_000` and
`part_001` are earlier revisions of the same file).  Pixel coordinates arrive
through `e.clientX | 0`, i.e. as integers, so they are modelled as `Int`;
quantities produced by fractional arithmetic (`* 0.25`, `/ actionWidth`) are
modelled in `ℚ` (the float operations involved are exact or decided far from
representation error for the integer inputs that occur).
-/

namespace Swipe

/-- The four arbitration phases of the `SwipeMachine` module-level record. -/
inductive Phase where
  | IDLE
  | DETECTING
  | SWIPING
  | LOCKED_OUT
  deriving DecidableEq, Repr

/-- A row element ("card") as touched by the engine: its identity and the
CSS classes / pointer-capture status the engine reads and writes. -/
structure CardEl where
  id : Nat
  isOpenLeft : Bool
  isOpenRight : Bool
  isSwipingClass : Bool
  isPressing : Bool
  isCharging : Bool
  hasCapture : Bool
  deriving DecidableEq, Repr

/-- The row's inner content wrapper: identity plus the applied horizontal
transform (`none` models a cleared transform / empty style). -/
structure ContentEl where
  id : Nat
  transform : Option ℚ
  deriving DecidableEq, Repr

/-- The module-level `SwipeMachine` record of `src/listeners/swipe.ts`
(fields the modelled operations read or write).  `initialEvent` is the
identity of the originating pointer-down event. -/
structure SwipeState where
  phase : Phase
  card : Option CardEl
  content : Option ContentEl
  initialEvent : Option Nat
  startX : Int
  startY : Int
  currentX : Int
  currentY : Int
  pointerId : Int
  rafId : Nat
  wasOpenLeft : Bool
  wasOpenRight : Bool
  lastFeedbackStep : Nat
  limitVibrationTimer : Nat
  longPressTimer : Nat
  actionWidth : Int
  deriving DecidableEq, Repr

/-- `_stopLimitVibration` (swipe.ts:80-86): clears the repeating limit-pulse
interval when one is active.  The `navigator.vibrate(0)` call is an external
effect with no state footprint. -/
def stopLimitVibration (s : SwipeState) : SwipeState :=
  if s.limitVibrationTimer ≠ 0 then { s with limitVibrationTimer := 0 } else s

/-- `_forceReset` (swipe.ts:191-237).  Cancels the frame request and the
long-press timeout (external `cancelAnimationFrame`/`clearTimeout` calls),
stops the limit vibration, strips the visual classes from the engaged card,
releases pointer capture, clears the content transform, and zeroes the
session fields.  NOTE (faithful to source): the code sets `rafId`,
`pointerId`, `card`, `content`, `initialEvent` and `state` back to their idle
defaults but never writes `SwipeMachine.longPressTimer = 0`; the field keeps
its stale handle. -/
def forceReset (s : SwipeState) : SwipeState :=
  let s := stopLimitVibration s
  { s with
    phase := Phase.IDLE
    card := none
    content := none
    initialEvent := none
    pointerId := -1
    rafId := 0 }

/-- The open/closed reveal classes of one row, as read/written by
`_finalizeAction` and the `pointerdown` handler. -/
structure OpenFlags where
  openLeft : Bool
  openRight : Bool
  deriving DecidableEq, Repr

/-- `_finalizeAction` (swipe.ts:239-256): the pointer-up decision.  Inputs:
the `wasOpenLeft`/`wasOpenRight` flags recorded at `pointerdown`, the action
threshold, the final horizontal delta `finalDeltaX = currentX - startX`, and
the card's current open/closed classes; output: the card's classes after the
class additions/removals the function performs. -/
def finalizeAction (wasOpenLeft wasOpenRight : Bool) (threshold : Int)
    (finalDeltaX : Int) (c : OpenFlags) : OpenFlags :=
  if wasOpenLeft then
    if finalDeltaX < -threshold then { c with openLeft := false } else c
  else if wasOpenRight then
    if finalDeltaX > threshold then { c with openRight := false } else c
  else
    if finalDeltaX > threshold then { c with openLeft := true }
    else if finalDeltaX < -threshold then { c with openRight := true }
    else c

/-- The visual-position computation of `_renderFrame` (swipe.ts:131-156):
given the cached action width and the offset-adjusted horizontal delta `tx`,
produce the rendered translation.  At or past the action point the position
is rubber-banded: `visualX = (actionPoint + min(excess*0.25, 20)) * sign`
with `sign = tx > 0 ? 1 : -1`; below it the raw delta is rendered. -/
def renderVisualX (actionWidth tx : Int) : ℚ :=
  let absX := |tx|
  let actionPoint := actionWidth
  if absX ≥ actionPoint then
    let excess := absX - actionPoint
    let visualOvershoot : ℚ := min ((excess : ℚ) * 0.25) 20
    let sign : ℚ := if tx > 0 then 1 else -1
    ((actionPoint : ℚ) + visualOvershoot) * sign
  else (tx : ℚ)

/-- Haptic intensities accepted by `triggerHaptic` (consumed externally). -/
inductive Haptic where
  | light
  | medium
  | heavy
  | selection
  deriving DecidableEq, Repr

/-- The haptic bookkeeping produced by one `_renderFrame` pass: the pulses
emitted this frame, the updated `lastFeedbackStep`, and whether the
limit-vibration interval is active afterwards. -/
structure FrameHaptics where
  pulses : List Haptic
  lastFeedbackStep : Nat
  limitVibrationActive : Bool
  deriving DecidableEq, Repr

/-- The haptic logic of `_renderFrame` (swipe.ts:143-169), for the
offset-adjusted delta `tx` (`absX = Math.abs(tx)`).  At or past the action
point: one heavy pulse on entering the pinned regime and the 80 ms
medium-pulse interval is started (its periodic firing is external).  Below
it the interval is stopped and the progressive zone divides `absX` into
8 px steps: on a step change the step is recorded, and exactly on a step
increase one pulse fires — light when `absX / actionPoint > 0.6`, selection
otherwise. -/
def renderFrameHaptics (actionWidth : Int) (lastFeedbackStep : Nat)
    (limitVibrationActive : Bool) (tx : Int) : FrameHaptics :=
  let absX := tx.natAbs
  let actionPoint := actionWidth
  if (absX : Int) ≥ actionPoint then
    if ¬ limitVibrationActive then
      { pulses := [Haptic.heavy], lastFeedbackStep := lastFeedbackStep,
        limitVibrationActive := true }
    else
      { pulses := [], lastFeedbackStep := lastFeedbackStep,
        limitVibrationActive := true }
  else
    let currentStep := absX / 8
    if currentStep ≠ lastFeedbackStep then
      if currentStep > lastFeedbackStep then
        let ratio : ℚ := (absX : ℚ) / (actionPoint : ℚ)
        { pulses := [if ratio > 0.6 then Haptic.light else Haptic.selection],
          lastFeedbackStep := currentStep, limitVibrationActive := false }
      else
        { pulses := [], lastFeedbackStep := currentStep,
          limitVibrationActive := false }
    else
      { pulses := [], lastFeedbackStep := lastFeedbackStep,
        limitVibrationActive := false }

/-- Result of one `_activeTouchGuard` invocation: whether `preventDefault`
was called on the touch-move event, and the machine state afterwards. -/
structure GuardResult where
  prevented : Bool
  after : SwipeState
  deriving DecidableEq, Repr

/-- `_activeTouchGuard` (swipe.ts:90-120), the shipping Euclidean-distance
variant.  Touch coordinates may be fractional, hence `ℚ`.  The source
compares `Math.sqrt(dx*dx + dy*dy) < HOLD_TOLERANCE_PX` with
`HOLD_TOLERANCE_PX = 15`; this is encoded by the equivalent squared
comparison `dx^2 + dy^2 < 15^2` (both sides nonnegative).  Outside the
tolerance, when the vertical delta dominates and itself exceeds the
tolerance, a pending long-press timer is cancelled and zeroed and the
card's charging class removed. -/
def activeTouchGuard (s : SwipeState) (cancelable : Bool)
    (touchX touchY : ℚ) : GuardResult :=
  if s.phase ≠ Phase.DETECTING then { prevented := false, after := s }
  else
    let dx := touchX - (s.startX : ℚ)
    let dy := touchY - (s.startY : ℚ)
    if dx ^ 2 + dy ^ 2 < 15 ^ 2 then
      { prevented := cancelable, after := s }
    else
      if |dy| > |dx| ∧ |dy| > 15 then
        if s.longPressTimer ≠ 0 then
          { prevented := false,
            after := { s with
              longPressTimer := 0,
              card := s.card.map (fun c => { c with isCharging := false }) } }
        else { prevented := false, after := s }
      else { prevented := false, after := s }

/-- `_onPointerMove` (swipe.ts:301-354).  `dragActive` is the drag
collaborator's `isDragging()` query; `captureOk` says whether the
`setPointerCapture` attempt at the DETECTING→SWIPING transition succeeds
(its failure is swallowed by the empty catch).  Coordinates arrive as
`e.clientX | 0`.  `requestAnimationFrame` hands back a fresh nonzero
handle, modelled as 1.  Faithful to source: on the transition the
long-press timeout is cancelled via `clearTimeout` but the field is not
zeroed. -/
def onPointerMove (dragActive captureOk : Bool) (s : SwipeState)
    (ex ey : Int) : SwipeState :=
  if s.phase = Phase.IDLE ∨ s.phase = Phase.LOCKED_OUT then s
  else if dragActive then forceReset s
  else
    let x := ex
    let y := ey
    let dx := x - s.startX
    let dy := y - s.startY
    let s1 := { s with currentX := x, currentY := y }
    if s1.phase = Phase.DETECTING then
      if s1.longPressTimer ≠ 0 then
        if |dx| > 5 ∧ |dx| > |dy| then
          { s1 with
            phase := Phase.SWIPING
            card := s1.card.map (fun c =>
              { c with
                hasCapture := c.hasCapture || captureOk,
                isPressing := false,
                isCharging := false,
                isSwipingClass := true }) }
        else s1
      else s1
    else if s1.phase = Phase.SWIPING then
      if s1.rafId = 0 then { s1 with rafId := 1 } else s1
    else s1

/-- A pointer-move event stream folded through `_onPointerMove` (all with
the same `dragActive`/`captureOk` environment). -/
def processMoves (dragActive captureOk : Bool) (s : SwipeState)
    (moves : List (Int × Int)) : SwipeState :=
  moves.foldl (fun st m => onPointerMove dragActive captureOk st m.1 m.2) s

/-- Result of `_triggerDrag`: the machine state afterwards, whether
`startDragSession` was invoked, and with which arguments
(card id, content-wrapper id, initiating-event id). -/
structure TriggerDragResult where
  after : SwipeState
  dragStarted : Bool
  dragArgs : Option (Nat × Nat × Nat)
  deriving DecidableEq, Repr

/-- `_triggerDrag` (swipe.ts:260-299), the long-press timeout callback.
Zeroes the timer field, stops the limit vibration; bails out unless still
DETECTING with card, content and initiating event present.  Then attempts
pointer capture on the card (`captureOk`): on failure it runs `_forceReset`
and returns; on success it emits a medium haptic, removes the charging
class, invokes `startDragSession(card, content, initialEvent)`, detaches
the listeners and locally resets the phase to IDLE, removing the pressing
class and clearing the content transform. -/
def triggerDrag (captureOk : Bool) (s : SwipeState) : TriggerDragResult :=
  let s1 := stopLimitVibration { s with longPressTimer := 0 }
  if s1.phase ≠ Phase.DETECTING then
    { after := s1, dragStarted := false, dragArgs := none }
  else
    match s1.card, s1.content, s1.initialEvent with
    | some card, some content, some ev =>
      if captureOk then
        let card1 := { card with
          hasCapture := true, isCharging := false, isPressing := false }
        let content1 := { content with transform := none }
        { after := { s1 with
            phase := Phase.IDLE, card := some card1, content := some content1 }
          dragStarted := true
          dragArgs := some (card.id, content.id, ev) }
      else
        { after := forceReset s1, dragStarted := false, dragArgs := none }
    | _, _, _ => { after := s1, dragStarted := false, dragArgs := none }

/-- The close-other-rows sweep of the `pointerdown` handler
(swipe.ts:408-411): every card in the container except the engaged one has
both open classes removed (for a card carrying no open class this is a
no-op, which coincides with mapping it to the closed flags).  `idx` is the
position of the first list element. -/
def closeOthersAux (target idx : Nat) : List OpenFlags → List OpenFlags
  | [] => []
  | c :: cs =>
    (if idx = target then c else { openLeft := false, openRight := false }) ::
      closeOthersAux target (idx + 1) cs

/-- The container's card classes after the `pointerdown` sweep, with the
engaged card at position `target`. -/
def closeOtherCards (cards : List OpenFlags) (target : Nat) : List OpenFlags :=
  closeOthersAux target 0 cards

/-- A click event as inspected by the post-swipe suppressor `blockClick`
(swipe.ts:365-372): whether the click target lies inside a revealed
delete / note action button. -/
structure ClickEvt where
  onDeleteBtn : Bool
  onNoteBtn : Bool
  deriving DecidableEq, Repr

/-- Whether `blockClick` suppresses a given click (stopPropagation +
preventDefault): every click except those on the revealed action buttons. -/
def clickSuppressed (e : ClickEvt) : Bool := !(e.onDeleteBtn || e.onNoteBtn)

/-- One observed click while the suppressor may still be attached: whether
this click was blocked, and whether the suppressor remains attached after
(`blockClick` unconditionally removes itself at the end of its body). -/
def suppressorStep (attached : Bool) (e : ClickEvt) : Bool × Bool :=
  if attached then (clickSuppressed e, false) else (false, attached)

/-- Process a sequence of observed clicks through the suppressor, returning
the per-click blocked flags and the final attached flag. -/
def suppressorRun : Bool → List ClickEvt → List Bool × Bool
  | a, [] => ([], a)
  | a, e :: es =>
    let r := suppressorStep a e
    let rest := suppressorRun r.2 es
    (r.1 :: rest.1, rest.2)

/-- A concrete mid-gesture session: DETECTING with a live long-press timer
handle (7), an engaged card and content wrapper, pointer 3 captured. -/
def detectingSample : SwipeState :=
  { phase := Phase.DETECTING
    card := some { id := 1, isOpenLeft := false, isOpenRight := false,
                   isSwipingClass := false, isPressing := true,
                   isCharging := true, hasCapture := false }
    content := some { id := 2, transform := none }
    initialEvent := some 10
    startX := 100, startY := 200, currentX := 100, currentY := 200
    pointerId := 3, rafId := 0
    wasOpenLeft := false, wasOpenRight := false
    lastFeedbackStep := 0, limitVibrationTimer := 0
    longPressTimer := 7, actionWidth := 60 }

end Swipe

open Swipe

/-- C1: pointer-up finalization is a pure decision on the final delta `d` and
the prior reveal state.  With no panel previously open the left panel opens
iff `d > T` and the right panel opens iff `d < -T`, otherwise the row stays
closed; with the left panel previously open it closes iff `d < -T`; with the
right panel previously open it closes iff `d > T`; in every other case the
open/closed classes are unchanged (the three equations fully determine the
result, so all remaining cases leave the classes as they were). -/
theorem finalizeAction_threshold_decision (T d : Int) (hT : 0 ≤ T) :
    finalizeAction false false T d { openLeft := false, openRight := false } =
      { openLeft := decide (d > T), openRight := decide (d < -T) } ∧
    finalizeAction true false T d { openLeft := true, openRight := false } =
      { openLeft := decide ¬(d < -T), openRight := false } ∧
    finalizeAction false true T d { openLeft := false, openRight := true } =
      { openLeft := false, openRight := decide ¬(d > T) } := by
  refine ⟨?_, ?_, ?_⟩ <;>
    simp only [finalizeAction, if_true, if_false, Bool.false_eq_true] <;>
    split_ifs with h1 h2 <;>
    simp_all <;> omega

/-- Witness for C1 at `T = 60`, `d = 75` (the spec's own example: open-left). -/
theorem finalizeAction_threshold_decision_witness :
    (0 : Int) ≤ 60 ∧
    finalizeAction false false 60 75 { openLeft := false, openRight := false } =
      { openLeft := decide ((75 : Int) > 60), openRight := decide ((75 : Int) < -60) } :=
  ⟨by decide, (finalizeAction_threshold_decision 60 75 (by decide)).1⟩

/-- C2: in SWIPING, whenever the offset-adjusted delta satisfies
`|delta| ≥ actionWidth`, the rendered position equals
`(actionWidth + min((|delta| - actionWidth) * 0.25, 20)) * sign(delta)`, and
for every delta whatsoever the rendered position is at most
`actionWidth + 20` px in magnitude. -/
theorem renderFrame_rubberBand (aw tx : Int) (haw : 0 ≤ aw) :
    (|tx| ≥ aw → renderVisualX aw tx =
      ((aw : ℚ) + min (((|tx| - aw : Int) : ℚ) * 0.25) 20) * ((tx.sign : Int) : ℚ)) ∧
    |renderVisualX aw tx| ≤ (aw : ℚ) + 20 := by
  constructor
  · intro h
    rcases lt_trichotomy tx 0 with hlt | heq | hgt
    · have hs : tx.sign = -1 := Int.sign_eq_neg_one_of_neg hlt
      simp only [renderVisualX, if_pos h, hs]
      have : ¬ tx > 0 := by omega
      simp [this]
    · subst heq
      have h' : (0 : Int) ≥ aw := by simpa using h
      have haw0 : aw = 0 := le_antisymm h' haw
      subst haw0
      norm_num [renderVisualX]
    · have hs : tx.sign = 1 := Int.sign_eq_one_of_pos hgt
      simp only [renderVisualX, if_pos h, hs]
      simp [hgt]
  · by_cases h : |tx| ≥ aw
    · simp only [renderVisualX, if_pos h]
      have hex : (0 : ℚ) ≤ ((|tx| - aw : Int) : ℚ) * 0.25 := by
        have : (0 : Int) ≤ |tx| - aw := by omega
        positivity
      have hmin1 : min (((|tx| - aw : Int) : ℚ) * 0.25) 20 ≤ 20 := min_le_right _ _
      have hmin0 : (0 : ℚ) ≤ min (((|tx| - aw : Int) : ℚ) * 0.25) 20 :=
        le_min hex (by norm_num)
      have hawq : (0 : ℚ) ≤ (aw : ℚ) := by exact_mod_cast haw
      by_cases hpos : tx > 0
      · simp only [if_pos hpos, mul_one]
        rw [abs_of_nonneg (by linarith)]
        linarith
      · simp only [if_neg hpos, mul_neg_one, abs_neg]
        rw [abs_of_nonneg (by linarith)]
        linarith
    · simp only [renderVisualX, if_neg h]
      have h2 : |tx| < aw := lt_of_not_ge h
      have h3 : |tx| ≤ aw + 20 := by linarith
      rw [← Int.cast_abs]
      exact_mod_cast h3

/-- Witness for C2 at the spec's example: `actionWidth = 60`, delta `140`
(excess 80, overshoot capped at 20, visual position 80). -/
theorem renderFrame_rubberBand_witness :
    (0 : Int) ≤ 60 ∧ |(140 : Int)| ≥ 60 ∧
    renderVisualX 60 140 =
      ((60 : ℚ) + min (((|(140 : Int)| - 60 : Int) : ℚ) * 0.25) 20) *
        (((140 : Int).sign : Int) : ℚ) :=
  ⟨by decide, by decide, (renderFrame_rubberBand 60 140 (by decide)).1 (by decide)⟩

/-- C3 counterexample: running `_forceReset` from DETECTING with a pending
long-press handle ends in IDLE, yet the long-press timer field is NOT zeroed
(it keeps its stale handle 7), so the claimed IDLE invariant "all session
handles are 0 or -1" fails after the reset. -/
theorem forceReset_keeps_longPress_handle :
    (forceReset detectingSample).phase = Phase.IDLE ∧
    (forceReset detectingSample).longPressTimer = 7 ∧
    ¬ ((forceReset detectingSample).longPressTimer = 0) := by
  refine ⟨rfl, rfl, ?_⟩
  intro h
  simp [forceReset, stopLimitVibration, detectingSample] at h

/-- C3 amended: `_forceReset`, from any phase, ends with phase IDLE, the
limit-pulse timer and frame-request handles at 0, the active pointer id at
-1, and `targetCard`/`targetContent` (and the initiating event) null, and is
idempotent — a redundant consecutive call changes nothing.  However the
long-press timer FIELD is not zeroed: the pending timeout is cancelled via
`clearTimeout`, but the stored handle value survives the reset unchanged. -/
theorem forceReset_amended (s : SwipeState) :
    (forceReset s).phase = Phase.IDLE ∧
    (forceReset s).card = none ∧
    (forceReset s).content = none ∧
    (forceReset s).initialEvent = none ∧
    (forceReset s).pointerId = -1 ∧
    (forceReset s).rafId = 0 ∧
    (forceReset s).limitVibrationTimer = 0 ∧
    (forceReset s).longPressTimer = s.longPressTimer ∧
    forceReset (forceReset s) = forceReset s := by
  unfold forceReset stopLimitVibration
  by_cases h : s.limitVibrationTimer ≠ 0 <;> simp [h] <;> omega

/-- Helper: one pointer-move sample that is not horizontal-dominant beyond
the 5 px direction-lock threshold leaves a DETECTING session in DETECTING
and keeps the touch origin. -/
theorem onPointerMove_detecting_stays (co : Bool) (s : SwipeState) (ex ey : Int)
    (hphase : s.phase = Phase.DETECTING)
    (h : |ex - s.startX| ≤ 5 ∨ |ex - s.startX| ≤ |ey - s.startY|) :
    (onPointerMove false co s ex ey).phase = Phase.DETECTING ∧
    (onPointerMove false co s ex ey).startX = s.startX ∧
    (onPointerMove false co s ex ey).startY = s.startY := by
  have hcond : ¬ (|ex - s.startX| > 5 ∧ |ex - s.startX| > |ey - s.startY|) := by
    rcases h with h | h
    · exact fun hc => absurd hc.1 (by omega)
    · exact fun hc => absurd hc.2 (by omega)
  simp only [onPointerMove, hphase]
  split_ifs <;> simp_all

/-- C4: for any pointer-move sequence in which every sample has `|dx| ≤ 5`
or `|dx| ≤ |dy|` relative to the touch origin (and no external drag session
is active), processing those move events never takes the phase out of
DETECTING — horizontal intent wins only when `|dx| > 5` and `|dx| > |dy|`. -/
theorem directionLock_stays_detecting (co : Bool) (s : SwipeState)
    (moves : List (Int × Int)) (hphase : s.phase = Phase.DETECTING)
    (hmoves : ∀ m ∈ moves,
      |m.1 - s.startX| ≤ 5 ∨ |m.1 - s.startX| ≤ |m.2 - s.startY|) :
    (processMoves false co s moves).phase = Phase.DETECTING := by
  induction moves generalizing s with
  | nil => simpa [processMoves] using hphase
  | cons m ms ih =>
    have hm := hmoves m (by simp)
    obtain ⟨h1, h2, h3⟩ := onPointerMove_detecting_stays co s m.1 m.2 hphase hm
    have : processMoves false co s (m :: ms) =
        processMoves false co (onPointerMove false co s m.1 m.2) ms := rfl
    rw [this]
    exact ih _ h1 (fun m' hm' => by
      rw [h2, h3]
      exact hmoves m' (List.mem_cons_of_mem _ hm'))

/-- Witness for C4: a DETECTING session processing two compliant samples
(dx = 3; then dx = -4 with |dx| ≤ |dy|) stays in DETECTING. -/
theorem directionLock_stays_detecting_witness :
    detectingSample.phase = Phase.DETECTING ∧
    (∀ m ∈ [((103 : Int), (230 : Int)), ((96 : Int), (190 : Int))],
      |m.1 - detectingSample.startX| ≤ 5 ∨
      |m.1 - detectingSample.startX| ≤ |m.2 - detectingSample.startY|) ∧
    (processMoves false false detectingSample
      [((103 : Int), (230 : Int)), ((96 : Int), (190 : Int))]).phase =
        Phase.DETECTING :=
  ⟨by decide, by decide,
    directionLock_stays_detecting false detectingSample _ (by decide) (by decide)⟩

/-- C8: while an external drag session is active, a pointer-move observed by
an in-flight session (DETECTING or SWIPING) unconditionally force-resets it
to IDLE, before any further gesture processing of that event — the result
is exactly the full-reset state, with no coordinate update or transition. -/
theorem dragActive_forces_reset (co : Bool) (s : SwipeState) (ex ey : Int)
    (h : s.phase = Phase.DETECTING ∨ s.phase = Phase.SWIPING) :
    onPointerMove true co s ex ey = forceReset s ∧
    (onPointerMove true co s ex ey).phase = Phase.IDLE := by
  have hni : ¬ (s.phase = Phase.IDLE ∨ s.phase = Phase.LOCKED_OUT) := by
    rcases h with h | h <;> simp [h]
  constructor
  · simp [onPointerMove, hni]
  · simp [onPointerMove, hni, forceReset]

/-- Witness for C8: the sample DETECTING session, observed during an active
drag, is reset to IDLE by the next move event. -/
theorem dragActive_forces_reset_witness :
    (detectingSample.phase = Phase.DETECTING ∨
      detectingSample.phase = Phase.SWIPING) ∧
    onPointerMove true false detectingSample 103 230 =
      forceReset detectingSample :=
  ⟨by decide,
    (dragActive_forces_reset false detectingSample 103 230 (Or.inl (by decide))).1⟩

/-- C5: in the progressive zone (`|delta| < actionWidth`) a discrete pulse is
emitted exactly when `floor(|delta| / 8)` strictly increased relative to the
last recorded step — never on a decrease, and never twice at the same step
since the step is re-recorded on every change — and its intensity is light
when `|delta| / actionWidth > 0.6`, selection otherwise. -/
theorem progressiveHaptic_edgeTriggered (aw : Int) (last : Nat) (active : Bool)
    (tx : Int) (h : (tx.natAbs : Int) < aw) :
    ((renderFrameHaptics aw last active tx).pulses ≠ [] ↔ tx.natAbs / 8 > last) ∧
    (renderFrameHaptics aw last active tx).lastFeedbackStep = tx.natAbs / 8 ∧
    (tx.natAbs / 8 > last →
      (renderFrameHaptics aw last active tx).pulses =
        [if ((tx.natAbs : ℚ) / (aw : ℚ) > 0.6) then Haptic.light
         else Haptic.selection]) := by
  have hot : ¬ ((tx.natAbs : Int) ≥ aw) := by omega
  simp only [renderFrameHaptics, if_neg hot]
  split_ifs with h1 h2 <;> simp_all <;> omega

/-- Witness for C5: `actionWidth = 60`, last step 0, `|delta| = 10` — step
becomes 1, one selection-weight pulse (ratio 1/6 ≤ 0.6). -/
theorem progressiveHaptic_edgeTriggered_witness :
    ((10 : Int).natAbs : Int) < 60 ∧
    ((renderFrameHaptics 60 0 false 10).pulses ≠ [] ↔ (10 : Int).natAbs / 8 > 0) :=
  ⟨by decide, (progressiveHaptic_edgeTriggered 60 0 false 10 (by decide)).1⟩

/-- Helper: the full reset ignores a preceding limit-vibration stop. -/
theorem forceReset_stopLimitVibration (s : SwipeState) :
    forceReset (stopLimitVibration s) = forceReset s := by
  unfold forceReset stopLimitVibration
  by_cases h : s.limitVibrationTimer ≠ 0 <;> simp [h]

/-- C6: when the long-press timer fires while still DETECTING with a valid
card, content wrapper and initiating event, pointer capture is attempted; on
capture failure the engine aborts to IDLE via the full reset and the drag
hand-off is not invoked; on success `startDragSession` is invoked exactly
once with that row, content wrapper and original pointer-down event, and the
engine locally resets to IDLE. -/
theorem triggerDrag_handoff (s : SwipeState) (card : CardEl)
    (content : ContentEl) (ev : Nat)
    (hphase : s.phase = Phase.DETECTING) (hcard : s.card = some card)
    (hcontent : s.content = some content) (hev : s.initialEvent = some ev) :
    ((triggerDrag false s).dragStarted = false ∧
     (triggerDrag false s).dragArgs = none ∧
     (triggerDrag false s).after = forceReset { s with longPressTimer := 0 } ∧
     (triggerDrag false s).after.phase = Phase.IDLE) ∧
    ((triggerDrag true s).dragStarted = true ∧
     (triggerDrag true s).dragArgs = some (card.id, content.id, ev) ∧
     (triggerDrag true s).after.phase = Phase.IDLE) := by
  have hfr := forceReset_stopLimitVibration { s with longPressTimer := 0 }
  by_cases hv : s.limitVibrationTimer ≠ 0 <;>
    simp_all [triggerDrag, stopLimitVibration, forceReset]

/-- Witness for C6: the sample DETECTING session hands off on capture
success with its card (1), content wrapper (2) and initiating event (10). -/
theorem triggerDrag_handoff_witness :
    detectingSample.phase = Phase.DETECTING ∧
    (triggerDrag true detectingSample).dragStarted = true ∧
    (triggerDrag true detectingSample).dragArgs = some (1, 2, 10) :=
  ⟨by decide,
    (triggerDrag_handoff detectingSample _ _ 10 (by decide) rfl rfl rfl).2.1,
    (triggerDrag_handoff detectingSample _ _ 10 (by decide) rfl rfl rfl).2.2.1⟩

/-- C7 counterexample: in DETECTING with a pending long-press timer, a
touch sample at displacement (dx, dy) = (11, 12) from the origin has
Euclidean distance √265 > 15 (outside the tolerance) on a vertical-dominant
trajectory (|dy| > |dx|), yet the guard does NOT cancel the long-press
timer: the code requires the vertical delta alone to exceed the tolerance
(`|dy| > 15`), not the straight-line displacement. -/
theorem touchGuard_no_timer_cancel_counterexample :
    detectingSample.phase = Phase.DETECTING ∧
    detectingSample.longPressTimer ≠ 0 ∧
    ((111 : ℚ) - (detectingSample.startX : ℚ)) ^ 2 +
      ((212 : ℚ) - (detectingSample.startY : ℚ)) ^ 2 > 15 ^ 2 ∧
    |(212 : ℚ) - (detectingSample.startY : ℚ)| >
      |(111 : ℚ) - (detectingSample.startX : ℚ)| ∧
    (activeTouchGuard detectingSample true 111 212).after.longPressTimer ≠ 0 := by
  refine ⟨by decide, by decide, ?_, ?_, ?_⟩
  · show ((111 : ℚ) - ((100 : Int) : ℚ)) ^ 2 + ((212 : ℚ) - ((200 : Int) : ℚ)) ^ 2 > 15 ^ 2
    norm_num
  · show |(212 : ℚ) - ((200 : Int) : ℚ)| > |(111 : ℚ) - ((100 : Int) : ℚ)|
    norm_num
  · simp only [activeTouchGuard, detectingSample]
    norm_num

/-- C7 amended: the guard acts only while DETECTING; it calls
`preventDefault` iff the event is cancelable and the Euclidean displacement
from the touch origin is within the 15 px tolerance radius; and it cancels
the pending long-press timer exactly when the VERTICAL delta dominates and
itself exceeds the tolerance (`|dy| > |dx|` and `|dy| > 15`) — not already
when the straight-line displacement exceeds the tolerance on a
vertical-dominant trajectory. -/
theorem touchGuard_amended (s : SwipeState) (cancelable : Bool)
    (touchX touchY : ℚ) :
    (s.phase ≠ Phase.DETECTING →
      activeTouchGuard s cancelable touchX touchY =
        { prevented := false, after := s }) ∧
    (s.phase = Phase.DETECTING →
      ((activeTouchGuard s cancelable touchX touchY).prevented = true ↔
        cancelable = true ∧
        (touchX - (s.startX : ℚ)) ^ 2 + (touchY - (s.startY : ℚ)) ^ 2 < 15 ^ 2) ∧
      ((activeTouchGuard s cancelable touchX touchY).after.longPressTimer =
        if |touchY - (s.startY : ℚ)| > |touchX - (s.startX : ℚ)| ∧
            |touchY - (s.startY : ℚ)| > 15 then 0
        else s.longPressTimer)) := by
  constructor
  · intro h
    simp [activeTouchGuard, h]
  · intro h
    have hph : ¬ (s.phase ≠ Phase.DETECTING) := by simp [h]
    set dx := touchX - (s.startX : ℚ) with hdx
    set dy := touchY - (s.startY : ℚ) with hdy
    by_cases hin : dx ^ 2 + dy ^ 2 < 15 ^ 2
    · have hnv : ¬ (|dy| > |dx| ∧ |dy| > 15) := by
        rintro ⟨-, h2⟩
        have hdy2 : dy ^ 2 > 225 := by nlinarith [abs_nonneg dy, sq_abs dy]
        nlinarith [sq_nonneg dx]
      simp only [activeTouchGuard, if_neg hph, ← hdx, ← hdy, if_pos hin, if_neg hnv]
      exact ⟨by simp [hin], trivial⟩
    · simp only [activeTouchGuard, if_neg hph, ← hdx, ← hdy, if_neg hin]
      constructor
      · split_ifs <;> simp [hin]
      · split_ifs with h1 h2 <;> simp_all

/-- Witness for C7 amended: in the sample DETECTING session a cancelable
touch sample at (104, 203) — displacement (4, 3), distance 5 < 15 — has its
default action cancelled. -/
theorem touchGuard_amended_witness :
    detectingSample.phase = Phase.DETECTING ∧
    ((activeTouchGuard detectingSample true 104 203).prevented = true ↔
      true = true ∧
      ((104 : ℚ) - (detectingSample.startX : ℚ)) ^ 2 +
        ((203 : ℚ) - (detectingSample.startY : ℚ)) ^ 2 < 15 ^ 2) :=
  ⟨by decide, ((touchGuard_amended detectingSample true 104 203).2 (by decide)).1⟩

/-- Helper: every position other than the engaged card's is mapped to the
closed flags by the `pointerdown` sweep. -/
theorem closeOthersAux_get (target : Nat) : ∀ (cs : List OpenFlags) (idx j : Nat)
    (hj : j < (closeOthersAux target idx cs).length), idx + j ≠ target →
    (closeOthersAux target idx cs).get ⟨j, hj⟩ =
      { openLeft := false, openRight := false } := by
  intro cs
  induction cs with
  | nil => intro idx j hj; simp [closeOthersAux] at hj
  | cons c cs ih =>
    intro idx j hj hne
    cases j with
    | zero =>
      have : idx ≠ target := by omega
      simp [closeOthersAux, this]
    | succ j =>
      have hj' : j < (closeOthersAux target (idx + 1) cs).length := by
        simpa [closeOthersAux] using hj
      have := ih (idx + 1) j hj' (by omega)
      simpa [closeOthersAux] using this

/-- C9: (i) finalization preserves "at most one open class per row": if the
engaged card carried at most one of the open classes at pointer-down (and the
recorded flags reflect them), then it does after finalization — both classes
are never added in one gesture; (ii) the pointer-down sweep immediately
removes the open classes from every card in the container other than the
engaged one. -/
theorem singleOpenPanel_invariant (wasL wasR : Bool) (T d : Int) (c : OpenFlags)
    (cards : List OpenFlags) (target j : Nat)
    (hL : wasL = c.openLeft) (hR : wasR = c.openRight)
    (hinv : ¬ (c.openLeft = true ∧ c.openRight = true))
    (hj : j < (closeOtherCards cards target).length) (hne : j ≠ target) :
    ¬ ((finalizeAction wasL wasR T d c).openLeft = true ∧
       (finalizeAction wasL wasR T d c).openRight = true) ∧
    (closeOtherCards cards target).get ⟨j, hj⟩ =
      { openLeft := false, openRight := false } := by
  constructor
  · subst hL hR
    unfold finalizeAction
    split_ifs <;> simp_all
  · exact closeOthersAux_get target cards 0 j hj (by omega)

/-- Witness for C9: finalizing an open-left row with `T = 60`, `d = 75`
keeps at most one class open, and the sweep for a gesture on card 1 closes
card 0 (which was open-left). -/
theorem singleOpenPanel_invariant_witness :
    (¬ (({ openLeft := true, openRight := false } : OpenFlags).openLeft = true ∧
        ({ openLeft := true, openRight := false } : OpenFlags).openRight = true)) ∧
    ¬ ((finalizeAction true false 60 75
          { openLeft := true, openRight := false }).openLeft = true ∧
       (finalizeAction true false 60 75
          { openLeft := true, openRight := false }).openRight = true) ∧
    (closeOtherCards [{ openLeft := true, openRight := false },
        { openLeft := false, openRight := false }] 1).get ⟨0, by decide⟩ =
      { openLeft := false, openRight := false } :=
  ⟨by decide,
    (singleOpenPanel_invariant true false 60 75 _
      [{ openLeft := true, openRight := false },
       { openLeft := false, openRight := false }] 1 0
      rfl rfl (by decide) (by decide) (by decide)).1,
    (singleOpenPanel_invariant true false 60 75
      { openLeft := true, openRight := false }
      [{ openLeft := true, openRight := false },
       { openLeft := false, openRight := false }] 1 0
      rfl rfl (by decide) (by decide) (by decide)).2⟩

/-- Helper: once detached, the suppressor blocks nothing and stays
detached. -/
theorem suppressorRun_detached (es : List ClickEvt) :
    suppressorRun false es = (List.replicate es.length false, false) := by
  induction es with
  | nil => rfl
  | cons e es ih => simp [suppressorRun, suppressorStep, ih, List.replicate]

/-- C10: the post-swipe click suppressor detaches itself on the very first
click it observes, whether or not that click was suppressed; consequently at
most one click is ever blocked per finalized swipe, and a first click on a
revealed action button passes through unblocked (zero clicks blocked) while
still consuming the suppressor. -/
theorem clickSuppressor_single_use (e : ClickEvt) (es : List ClickEvt) :
    (suppressorStep true e).2 = false ∧
    (suppressorRun true (e :: es)).1.count true ≤ 1 ∧
    (suppressorRun true (e :: es)).2 = false ∧
    ((e.onDeleteBtn || e.onNoteBtn) = true →
      (suppressorRun true (e :: es)).1.count true = 0) := by
  have hrun : suppressorRun true (e :: es) =
      (clickSuppressed e :: List.replicate es.length false, false) := by
    simp [suppressorRun, suppressorStep, suppressorRun_detached]
  refine ⟨by simp [suppressorStep], ?_, by simp [hrun], ?_⟩
  · rw [hrun]
    cases h : clickSuppressed e <;>
      simp [List.count_cons, List.count_replicate, h]
  · intro hbtn
    have : clickSuppressed e = false := by simp [clickSuppressed, hbtn]
    rw [hrun]
    simp [List.count_cons, List.count_replicate, this]

/-- Witness for C10: a first click on the revealed delete button, followed
by one more click, blocks nothing and the suppressor is consumed. -/
theorem clickSuppressor_single_use_witness :
    ((ClickEvt.mk true false).onDeleteBtn || (ClickEvt.mk true false).onNoteBtn) = true ∧
    (suppressorRun true [ClickEvt.mk true false, ClickEvt.mk false false]).1.count true = 0 :=
  ⟨by decide,
    (clickSuppressor_single_use (ClickEvt.mk true false)
      [ClickEvt.mk false false]).2.2.2 (by decide)⟩
